import Mathlib

/-!
Shallow embedding of the CodingTimeTracker core: the `DatabaseManager`
(called `Store` in the specification, `src/unnamed/part_001`) and the
`ActivityTracker` (`src/src/extension.ts`).

Timestamps are modelled as `Int` milliseconds.  Each externally triggered
operation happens at a single instant `now`, standing for `Date.now()`.
The `DatabaseManager` holds `db : SqlJsDatabase | null`; we model the
manager as `Option Store` where `none` is the closed/uninitialized state,
in which mutating methods throw `"Database not initialized"`.  A thrown
exception is modelled by the `Option String` component of a result pair:
`some msg` means the JS call threw after producing the returned state
(assignments after the throwing call do not happen).
-/

/-- A row of the `sessions` table. -/
structure Session where
  id : Nat
  file_path : String
  project_path : Option String
  start_time : Int
  end_time : Option Int
  duration_ms : Option Int
deriving DecidableEq

/-- A row of the `file_stats` table (`file_path` is the primary key). -/
structure FileStats where
  file_path : String
  project_path : Option String
  total_time_ms : Int
  last_active : Int
deriving DecidableEq

/-- The in-memory database: both tables plus the AUTOINCREMENT counter. -/
structure Store where
  sessions : List Session
  file_stats : List FileStats
  nextId : Nat
deriving DecidableEq

/-- Fresh database produced by `createTables`: empty tables, first rowid 1. -/
def Store.init : Store := ⟨[], [], 1⟩

/-- `DatabaseManager.startSession`: INSERT an open session row, return
`last_insert_rowid()`. -/
def Store.startSession (st : Store) (filePath : String)
    (projectPath : Option String) (now : Int) : Store × Nat :=
  let s : Session :=
    { id := st.nextId, file_path := filePath, project_path := projectPath,
      start_time := now, end_time := none, duration_ms := none }
  (⟨st.sessions ++ [s], st.file_stats, st.nextId + 1⟩, st.nextId)

/-- `DatabaseManager.updateFileStats`: if a `file_stats` row for
`filePath` exists, UPDATE adds `durationMs` and sets `last_active`
(leaving `project_path` untouched); otherwise INSERT a fresh row. -/
def updateFileStats (l : List FileStats) (filePath : String)
    (projectPath : Option String) (durationMs : Int) (timestamp : Int) :
    List FileStats :=
  if (l.find? (fun r => r.file_path == filePath)).isSome then
    l.map (fun r =>
      if r.file_path == filePath then
        { r with total_time_ms := r.total_time_ms + durationMs,
                 last_active := timestamp }
      else r)
  else
    l ++ [{ file_path := filePath, project_path := projectPath,
            total_time_ms := durationMs, last_active := timestamp }]

/-- `DatabaseManager.endSession`: SELECT the row by id (any row, open or
closed); if absent return; otherwise set `end_time`/`duration_ms` on every
row with that id and apply `updateFileStats`. -/
def Store.endSession (st : Store) (sessionId : Nat) (now : Int) : Store :=
  match st.sessions.find? (fun s => s.id == sessionId) with
  | none => st
  | some s =>
    let endTime := now
    let durationMs := endTime - s.start_time
    { st with
      sessions := st.sessions.map (fun r =>
        if r.id == sessionId then
          { r with end_time := some endTime, duration_ms := some durationMs }
        else r),
      file_stats :=
        updateFileStats st.file_stats s.file_path s.project_path durationMs endTime }

/-- `DatabaseManager.getTodayStats`: over sessions with
`start_time >= todayStartMs`, `COALESCE(SUM(duration_ms), 0)` (SQL `SUM`
skips NULLs) and `COUNT(DISTINCT file_path)`. -/
def Store.getTodayStats (st : Store) (todayStartMs : Int) : Int × Nat :=
  let rows := st.sessions.filter (fun s => todayStartMs ≤ s.start_time)
  ((rows.map (fun s => s.duration_ms.getD 0)).sum,
   ((rows.map (fun s => s.file_path)).dedup).length)

/-- Total time recorded in a `file_stats` list for a file (0 if no row),
reading the first matching row as SQL does on a primary key. -/
def statsTotal (l : List FileStats) (fp : String) : Int :=
  match l.find? (fun r => r.file_path == fp) with
  | some r => r.total_time_ms
  | none => 0

/-- `last_active` of the `file_stats` row for a file, if any. -/
def statsLastActive (l : List FileStats) (fp : String) : Option Int :=
  (l.find? (fun r => r.file_path == fp)).map (fun r => r.last_active)

/-- `project_path` of the `file_stats` row for a file, if the row exists. -/
def statsProject (l : List FileStats) (fp : String) : Option (Option String) :=
  (l.find? (fun r => r.file_path == fp)).map (fun r => r.project_path)

/-- Sum of `duration_ms` over the closed sessions for one file. -/
def closedDurSum (l : List Session) (fp : String) : Int :=
  ((l.filter (fun s => s.file_path == fp && s.end_time.isSome)).map
    (fun s => s.duration_ms.getD 0)).sum

/-! ## ActivityTracker (`src/src/extension.ts`) -/

/-- `IDLE_TIMEOUT_MS = 2 * 60 * 1000` (2 minutes). -/
def IDLE_TIMEOUT_MS : Int := 2 * 60 * 1000

/-- `HEARTBEAT_INTERVAL_MS = 30 * 1000` (30 seconds). -/
def HEARTBEAT_INTERVAL_MS : Int := 30 * 1000

/-- The tracker's mutable fields relevant to the session state machine. -/
structure Tracker where
  currentSessionId : Option Nat
  currentFilePath : Option String
  lastActivityTime : Int
deriving DecidableEq

/-- Combined state: the `DatabaseManager` (`db = none` once closed or when
never initialized) and the tracker instance. -/
structure SysState where
  db : Option Store
  tracker : Tracker
deriving DecidableEq

/-- `ActivityTracker.isTracking`. -/
def isTracking (t : Tracker) : Bool := t.currentSessionId.isSome

/-- `ActivityTracker.getProjectPath`: first workspace folder whose path is
a string prefix of the file path, else null. -/
def getProjectPath (folders : List String) (filePath : String) : Option String :=
  folders.find? (fun f => filePath.startsWith f)

/-- `DatabaseManager.endSession` as invoked through the manager: throws
`"Database not initialized"` when `db` is null, else runs `Store.endSession`. -/
def dbmEndSession (db : Option Store) (sid : Nat) (now : Int) :
    Option Store × Option String :=
  match db with
  | none => (none, some "Database not initialized")
  | some st => (some (st.endSession sid now), none)

/-- `DatabaseManager.startSession` through the manager: throws when `db` is
null, else inserts and returns the fresh session id. -/
def dbmStartSession (db : Option Store) (fp : String) (pp : Option String)
    (now : Int) : (Option Store × Nat) × Option String :=
  match db with
  | none => ((none, 0), some "Database not initialized")
  | some st =>
    let r := st.startSession fp pp now
    ((some r.1, r.2), none)

/-- `ActivityTracker.endCurrentSession`: if a session id is held, call
`db.endSession` and only then clear `currentSessionId`/`currentFilePath`.
If the store call throws, the clearing assignments never run and the
exception propagates (`some msg`). -/
def endCurrentSession (s : SysState) (now : Int) : SysState × Option String :=
  match s.tracker.currentSessionId with
  | none => (s, none)
  | some sid =>
    match dbmEndSession s.db sid now with
    | (db1, some e) => ({ s with db := db1 }, some e)
    | (db1, none) =>
      ({ db := db1,
         tracker := { s.tracker with
                      currentSessionId := none,
                      currentFilePath := none } }, none)

/-- `ActivityTracker.startNewSession`: end the current session, resolve the
project path, open a new store session and point the tracker at it; any
exception short-circuits the remaining assignments. -/
def startNewSession (s : SysState) (folders : List String) (filePath : String)
    (now : Int) : SysState × Option String :=
  match endCurrentSession s now with
  | (s1, some e) => (s1, some e)
  | (s1, none) =>
    let projectPath := getProjectPath folders filePath
    match dbmStartSession s1.db filePath projectPath now with
    | ((db1, _), some e) => ({ s1 with db := db1 }, some e)
    | ((db1, sid), none) =>
      ({ db := db1,
         tracker := {
           currentSessionId := some sid,
           currentFilePath := some filePath,
           lastActivityTime := now } }, none)

/-- `ActivityTracker.onActivity`: refresh `lastActivityTime`; if the open
session is already for this file do nothing more, else switch sessions. -/
def onActivity (s : SysState) (folders : List String) (filePath : String)
    (now : Int) : SysState × Option String :=
  let s0 : SysState :=
    { s with tracker := { s.tracker with lastActivityTime := now } }
  if s0.tracker.currentFilePath == some filePath
      && s0.tracker.currentSessionId.isSome then
    (s0, none)
  else
    startNewSession s0 folders filePath now

/-- `ActivityTracker.onEditorChange`: switch sessions when the active file
differs, then refresh `lastActivityTime` (skipped if the switch threw). -/
def onEditorChange (s : SysState) (folders : List String) (filePath : String)
    (now : Int) : SysState × Option String :=
  if s.tracker.currentFilePath == some filePath then
    ({ s with tracker := { s.tracker with lastActivityTime := now } }, none)
  else
    match startNewSession s folders filePath now with
    | (s1, some e) => (s1, some e)
    | (s1, none) =>
      ({ s1 with tracker := { s1.tracker with lastActivityTime := now } }, none)

/-- The window-blur branch of the `onDidChangeWindowState` handler:
`lastActivityTime = Date.now() - IDLE_TIMEOUT_MS`. -/
def onWindowBlur (s : SysState) (now : Int) : SysState :=
  { s with tracker :=
      { s.tracker with lastActivityTime := now - IDLE_TIMEOUT_MS } }

/-- `ActivityTracker.checkIdle`: with a session open, close it when
`now - lastActivityTime >= IDLE_TIMEOUT_MS`; otherwise do nothing. -/
def checkIdle (s : SysState) (now : Int) : SysState × Option String :=
  match s.tracker.currentSessionId with
  | none => (s, none)
  | some _ =>
    if IDLE_TIMEOUT_MS ≤ now - s.tracker.lastActivityTime then
      endCurrentSession s now
    else (s, none)

/-- `ActivityTracker.stop`: ends the current session (timer/listener
teardown carries no session state). -/
def trackerStop (s : SysState) (now : Int) : SysState × Option String :=
  endCurrentSession s now

/-- One external event delivered to the tracker, carrying the instant at
which it fires. -/
inductive TrackerOp where
  | activity (filePath : String) (now : Int)
  | editorChange (filePath : String) (now : Int)
  | focusChange (focused : Bool) (activeFile : Option String) (now : Int)
  | tick (now : Int)
  | stopOp (now : Int)
deriving DecidableEq

/-- Dispatch one event exactly as the handlers registered in
`ActivityTracker.start` do. -/
def applyTrackerOp (folders : List String) (s : SysState) :
    TrackerOp → SysState × Option String
  | .activity fp now => onActivity s folders fp now
  | .editorChange fp now => onEditorChange s folders fp now
  | .focusChange focused activeFile now =>
    if focused then
      match activeFile with
      | some fp => onActivity s folders fp now
      | none => (s, none)
    else (onWindowBlur s now, none)
  | .tick now => checkIdle s now
  | .stopOp now => trackerStop s now

/-- Run a sequence of events; an uncaught exception in one callback does
not stop later callbacks from firing. -/
def runSys (folders : List String) (s : SysState) : List TrackerOp → SysState
  | [] => s
  | op :: ops => runSys folders (applyTrackerOp folders s op).1 ops

/-- State right after `activate`: fresh store, idle tracker. -/
def initSys : SysState :=
  { db := some Store.init,
    tracker := { currentSessionId := none, currentFilePath := none,
                 lastActivityTime := 0 } }

/-- Number of open rows in the `sessions` table (0 when the db is closed). -/
def countOpen (s : SysState) : Nat :=
  match s.db with
  | none => 0
  | some st => (st.sessions.filter (fun x => x.end_time.isNone)).length

/-! ## Sequences of store operations -/

/-- One direct store call: open a session or close one by id. -/
inductive StoreOp where
  | openS (filePath : String) (projectPath : Option String) (now : Int)
  | closeS (sid : Nat) (now : Int)
deriving DecidableEq

/-- Apply one store call. -/
def applyStoreOp (st : Store) : StoreOp → Store
  | .openS fp pp now => (st.startSession fp pp now).1
  | .closeS sid now => st.endSession sid now

/-- Run a list of store calls in order. -/
def runStore (st : Store) : List StoreOp → Store
  | [] => st
  | op :: ops => runStore (applyStoreOp st op) ops

/-- A close is proper when it does not target an already-closed session
(closing an unknown id is allowed: the store ignores it). -/
def ProperClose (st : Store) : StoreOp → Prop
  | .openS _ _ _ => True
  | .closeS sid _ =>
    ∀ sess, st.sessions.find? (fun s => s.id == sid) = some sess →
      sess.end_time = none

/-- Every close in the sequence is proper at the state where it runs. -/
def ProperSeq : Store → List StoreOp → Prop
  | _, [] => True
  | st, op :: ops => ProperClose st op ∧ ProperSeq (applyStoreOp st op) ops

/-- Structural well-formedness the store maintains: session ids are
pairwise distinct and below the AUTOINCREMENT counter. -/
def StoreWF (st : Store) : Prop :=
  (st.sessions.map (fun s => s.id)).Nodup ∧
  ∀ s ∈ st.sessions, s.id < st.nextId

/-- The aggregation law: every file's `total_time_ms` equals the sum of
`duration_ms` over its closed sessions. -/
def AggInv (st : Store) : Prop :=
  ∀ fp, statsTotal st.file_stats fp = closedDurSum st.sessions fp

/-- Invariant tying the tracker to the store: ids are well formed, every
open row is the tracker's current session, and the current id (if any)
exists in the table. -/
def StInv (st : Store) (cur : Option Nat) : Prop :=
  StoreWF st ∧
  (∀ x ∈ st.sessions, x.end_time = none → cur = some x.id) ∧
  (∀ sid, cur = some sid → ∃ x ∈ st.sessions, x.id = sid)

/-- System-level invariant (vacuous once the database is closed). -/
def SysInv (s : SysState) : Prop :=
  ∀ st, s.db = some st → StInv st s.tracker.currentSessionId

/-! ## Concrete states used to exercise the theorems -/

/-- One session opened on file `"a"` at t=0 (id 1), still open. -/
def exStore : Store := (Store.init.startSession "a" none 0).1

/-- File `"f"` closed once under project `"p1"`, then a second session on
the same file under project `"p2"` opened (id 2), still open. -/
def exStoreP : Store :=
  ((((Store.init.startSession "f" (some "p1") 0).1.endSession 1 10).startSession
    "f" (some "p2") 20).1)

/-- Tracker holding the open session of `exStore`. -/
def exOpen : SysState :=
  { db := some exStore,
    tracker := { currentSessionId := some 1, currentFilePath := some "a",
                 lastActivityTime := 0 } }

/-- Same tracker state but the database handle is already null (closed),
so any store call throws. -/
def exDbClosed : SysState :=
  { db := none,
    tracker := { currentSessionId := some 1, currentFilePath := some "a",
                 lastActivityTime := 0 } }

/-! ## Lemmas about `updateFileStats` -/

lemma updateFileStats_cons_ne (r : FileStats) (l : List FileStats)
    (fp : String) (pp : Option String) (d t : Int) (h : ¬ r.file_path = fp) :
    updateFileStats (r :: l) fp pp d t = r :: updateFileStats l fp pp d t := by
  have hb : (r.file_path == fp) = false := by simp [h]
  unfold updateFileStats
  by_cases hs : (l.find? (fun x => x.file_path == fp)).isSome
  · simp [List.find?, hb, hs, h]
  · simp [List.find?, hb, hs, h]

lemma find?_updateFileStats_self (l : List FileStats) (fp : String)
    (pp : Option String) (d t : Int) :
    (updateFileStats l fp pp d t).find? (fun r => r.file_path == fp) =
      match l.find? (fun r => r.file_path == fp) with
      | some r => some { r with total_time_ms := r.total_time_ms + d,
                                last_active := t }
      | none => some { file_path := fp, project_path := pp,
                       total_time_ms := d, last_active := t } := by
  induction l with
  | nil => simp [updateFileStats, List.find?]
  | cons r l ih =>
    by_cases h : r.file_path = fp
    · have hb : (r.file_path == fp) = true := by simp [h]
      unfold updateFileStats
      simp [List.find?, hb, h]
    · have hb : (r.file_path == fp) = false := by simp [h]
      rw [updateFileStats_cons_ne r l fp pp d t h]
      simp only [List.find?, hb]
      exact ih

lemma find?_map_updIf_other (l : List FileStats) (fp fp2 : String) (d t : Int)
    (h : ¬ fp2 = fp) :
    (l.map (fun r =>
      if r.file_path == fp then
        { r with total_time_ms := r.total_time_ms + d, last_active := t }
      else r)).find? (fun r => r.file_path == fp2) =
    l.find? (fun r => r.file_path == fp2) := by
  have h2 : ¬ fp = fp2 := fun hc => h hc.symm
  induction l with
  | nil => simp
  | cons r l ih =>
    by_cases h3 : r.file_path = fp
    · have hb3 : (r.file_path == fp) = true := by simp [h3]
      have hb4 : (r.file_path == fp2) = false := by simp [h3, h2]
      simp only [List.map_cons, hb3, if_true, List.find?, hb4]
      exact ih
    · have hb3 : (r.file_path == fp) = false := by simp [h3]
      by_cases h4 : r.file_path = fp2
      · have hb4 : (r.file_path == fp2) = true := by simp [h4]
        simp [List.map_cons, hb3, List.find?, hb4]
      · have hb4 : (r.file_path == fp2) = false := by simp [h4]
        simp only [List.map_cons, hb3, if_false, Bool.false_eq_true,
          List.find?, hb4]
        exact ih

lemma find?_updateFileStats_other (l : List FileStats) (fp fp2 : String)
    (pp : Option String) (d t : Int) (h : ¬ fp2 = fp) :
    (updateFileStats l fp pp d t).find? (fun r => r.file_path == fp2) =
      l.find? (fun r => r.file_path == fp2) := by
  have h2 : ¬ fp = fp2 := fun hc => h hc.symm
  unfold updateFileStats
  by_cases hs : (l.find? (fun x => x.file_path == fp)).isSome
  · simp only [hs, if_true]
    exact find?_map_updIf_other l fp fp2 d t h
  · simp only [hs, if_false, Bool.false_eq_true]
    rw [List.find?_append]
    cases hf : l.find? (fun r => r.file_path == fp2) with
    | some r => simp [hf]
    | none =>
      have hb2 : (fp == fp2) = false := by simp [h2]
      simp [hf, List.find?, hb2]

lemma statsTotal_updateFileStats_self (l : List FileStats) (fp : String)
    (pp : Option String) (d t : Int) :
    statsTotal (updateFileStats l fp pp d t) fp = statsTotal l fp + d := by
  unfold statsTotal
  rw [find?_updateFileStats_self]
  cases l.find? (fun r => r.file_path == fp) with
  | some r => simp
  | none => simp

lemma statsTotal_updateFileStats_other (l : List FileStats) (fp fp2 : String)
    (pp : Option String) (d t : Int) (h : ¬ fp2 = fp) :
    statsTotal (updateFileStats l fp pp d t) fp2 = statsTotal l fp2 := by
  unfold statsTotal
  rw [find?_updateFileStats_other l fp fp2 pp d t h]

lemma statsLastActive_updateFileStats_self (l : List FileStats) (fp : String)
    (pp : Option String) (d t : Int) :
    statsLastActive (updateFileStats l fp pp d t) fp = some t := by
  unfold statsLastActive
  rw [find?_updateFileStats_self]
  cases l.find? (fun r => r.file_path == fp) with
  | some r => simp
  | none => simp

lemma statsProject_updateFileStats (l : List FileStats) (fp : String)
    (pp : Option String) (d t : Int) :
    statsProject (updateFileStats l fp pp d t) fp =
      match l.find? (fun r => r.file_path == fp) with
      | some r => some r.project_path
      | none => some pp := by
  unfold statsProject
  rw [find?_updateFileStats_self]
  cases l.find? (fun r => r.file_path == fp) with
  | some r => simp
  | none => simp

/-! ## Lemmas about `Store.endSession` and `closedDurSum` -/

lemma endSession_eq_of_find (st : Store) (sid : Nat) (now : Int)
    (sess : Session)
    (hfind : st.sessions.find? (fun s => s.id == sid) = some sess) :
    st.endSession sid now =
      { sessions := st.sessions.map (fun r =>
          if r.id == sid then
            { r with end_time := some now,
                     duration_ms := some (now - sess.start_time) }
          else r),
        file_stats := updateFileStats st.file_stats sess.file_path
          sess.project_path (now - sess.start_time) now,
        nextId := st.nextId } := by
  simp [Store.endSession, hfind]

lemma endSession_eq_of_none (st : Store) (sid : Nat) (now : Int)
    (hfind : st.sessions.find? (fun s => s.id == sid) = none) :
    st.endSession sid now = st := by
  simp [Store.endSession, hfind]

lemma close_map_spec (l : List Session) (sid : Nat) (now d : Int)
    (x : Session)
    (hx : x ∈ l.map (fun r =>
      if r.id == sid then
        { r with end_time := some now, duration_ms := some d }
      else r))
    (hid : x.id = sid) :
    x.end_time = some now ∧ x.duration_ms = some d := by
  obtain ⟨y, hy, hxy⟩ := List.mem_map.1 hx
  by_cases h : y.id = sid
  · have hb : (y.id == sid) = true := by simp [h]
    rw [hb] at hxy
    simp at hxy
    subst hxy
    exact ⟨rfl, rfl⟩
  · have hb : (y.id == sid) = false := by simp [h]
    rw [hb] at hxy
    simp at hxy
    subst hxy
    exact absurd hid h

lemma close_map_ids (l : List Session) (sid : Nat) (now d : Int) :
    (l.map (fun r =>
      if r.id == sid then
        { r with end_time := some now, duration_ms := some d }
      else r)).map (fun s => s.id) = l.map (fun s => s.id) := by
  rw [List.map_map]
  apply List.map_congr_left
  intro y _
  by_cases h : y.id = sid
  · simp [h]
  · simp [h]

lemma close_map_of_no_id (l : List Session) (sid : Nat) (now d : Int)
    (h : ∀ y ∈ l, ¬ y.id = sid) :
    l.map (fun r =>
      if r.id == sid then
        { r with end_time := some now, duration_ms := some d }
      else r) = l := by
  have : ∀ y ∈ l, (fun r =>
      if r.id == sid then
        { r with end_time := some now, duration_ms := some d }
      else r) y = id y := by
    intro y hy
    simp [h y hy]
  rw [List.map_congr_left this, List.map_id]

lemma closedDurSum_cons (r : Session) (l : List Session) (fp : String) :
    closedDurSum (r :: l) fp =
      (if r.file_path == fp && r.end_time.isSome
        then r.duration_ms.getD 0 else 0) + closedDurSum l fp := by
  unfold closedDurSum
  by_cases h : (r.file_path == fp && r.end_time.isSome) = true
  · simp [List.filter_cons, h]
  · simp only [Bool.not_eq_true] at h
    simp [List.filter_cons, h]

lemma closedDurSum_append (l1 l2 : List Session) (fp : String) :
    closedDurSum (l1 ++ l2) fp = closedDurSum l1 fp + closedDurSum l2 fp := by
  unfold closedDurSum
  rw [List.filter_append, List.map_append, List.sum_append]

lemma closedDurSum_map_close (l : List Session) (sid : Nat) (now d : Int)
    (sess : Session) (fp : String)
    (hnd : (l.map (fun s => s.id)).Nodup)
    (hfind : l.find? (fun s => s.id == sid) = some sess)
    (hopen : sess.end_time = none) :
    closedDurSum (l.map (fun r =>
      if r.id == sid then
        { r with end_time := some now, duration_ms := some d }
      else r)) fp
      = closedDurSum l fp + (if sess.file_path == fp then d else 0) := by
  induction l with
  | nil => simp [List.find?] at hfind
  | cons r l ih =>
    by_cases h : r.id = sid
    · have hb : (r.id == sid) = true := by simp [h]
      have hsess : sess = r := by
        have hh : (r :: l).find? (fun s => s.id == sid) = some r := by
          simp [List.find?, hb]
        rw [hh] at hfind
        exact (Option.some.inj hfind).symm
      subst hsess
      have htail : ∀ y ∈ l, ¬ y.id = sid := by
        intro y hy hc
        rw [List.map_cons, List.nodup_cons] at hnd
        apply hnd.1
        have hye : y.id = sess.id := by rw [hc, h]
        rw [← hye]
        exact List.mem_map_of_mem _ hy
      rw [List.map_cons, if_pos hb, close_map_of_no_id l sid now d htail,
        closedDurSum_cons, closedDurSum_cons]
      simp only [hopen, Option.isSome_some, Option.isSome_none,
        Bool.and_true, Bool.and_false, if_false]
      by_cases hf : (sess.file_path == fp) = true
      · simp [hf]; ring
      · simp only [Bool.not_eq_true] at hf
        simp [hf]
    · have hb : (r.id == sid) = false := by simp [h]
      have hfind2 : l.find? (fun s => s.id == sid) = some sess := by
        have hh : (r :: l).find? (fun s => s.id == sid) =
            l.find? (fun s => s.id == sid) := by
          simp [List.find?, hb]
        rw [hh] at hfind
        exact hfind
      have hnd2 : (l.map (fun s => s.id)).Nodup := by
        rw [List.map_cons, List.nodup_cons] at hnd
        exact hnd.2
      rw [List.map_cons, if_neg (by simp [h]), closedDurSum_cons,
        closedDurSum_cons, ih hnd2 hfind2]
      ring

/-! ## Preservation of the store invariants -/

lemma storeWF_init : StoreWF Store.init :=
  ⟨by simp [Store.init], by simp [Store.init]⟩

lemma aggInv_init : AggInv Store.init := by
  intro fp
  simp [Store.init, statsTotal, closedDurSum, List.find?]

lemma storeWF_start (st : Store) (fp : String) (pp : Option String)
    (now : Int) (h : StoreWF st) :
    StoreWF (st.startSession fp pp now).1 := by
  obtain ⟨h1, h2⟩ := h
  constructor
  · simp only [Store.startSession, List.map_append, List.map_cons,
      List.map_nil]
    rw [List.nodup_append]
    refine ⟨h1, List.nodup_singleton _, ?_⟩
    intro a ha hb
    simp only [List.mem_singleton] at hb
    subst hb
    obtain ⟨s, hs, hsid⟩ := List.mem_map.1 ha
    exact absurd (hsid ▸ h2 s hs) (lt_irrefl _)
  · intro s hs
    simp only [Store.startSession, List.mem_append, List.mem_singleton] at hs
    cases hs with
    | inl hmem => exact Nat.lt_succ_of_lt (h2 s hmem)
    | inr heq => subst heq; exact Nat.lt_succ_self _

lemma storeWF_end (st : Store) (sid : Nat) (now : Int) (h : StoreWF st) :
    StoreWF (st.endSession sid now) := by
  obtain ⟨h1, h2⟩ := h
  cases hf : st.sessions.find? (fun s => s.id == sid) with
  | none => rw [endSession_eq_of_none st sid now hf]; exact ⟨h1, h2⟩
  | some sess =>
    rw [endSession_eq_of_find st sid now sess hf]
    constructor
    · rw [close_map_ids]
      exact h1
    · intro x hx
      obtain ⟨y, hy, hxy⟩ := List.mem_map.1 hx
      by_cases hid : y.id = sid
      · rw [if_pos (by simp [hid])] at hxy
        rw [← hxy]
        exact h2 y hy
      · rw [if_neg (by simp [hid])] at hxy
        rw [← hxy]
        exact h2 y hy

lemma aggInv_start (st : Store) (fp : String) (pp : Option String)
    (now : Int) (h : AggInv st) :
    AggInv (st.startSession fp pp now).1 := by
  intro fp2
  simp only [Store.startSession]
  rw [closedDurSum_append]
  have hz : closedDurSum [{
      id := st.nextId,
      file_path := fp,
      project_path := pp,
      start_time := now,
      end_time := none,
      duration_ms := none }] fp2 = 0 := by
    simp [closedDurSum, List.filter]
  rw [hz, add_zero]
  exact h fp2

lemma aggInv_end (st : Store) (sid : Nat) (now : Int) (h1 : StoreWF st)
    (h2 : AggInv st)
    (hp : ∀ sess, st.sessions.find? (fun s => s.id == sid) = some sess →
      sess.end_time = none) :
    AggInv (st.endSession sid now) := by
  cases hf : st.sessions.find? (fun s => s.id == sid) with
  | none => rw [endSession_eq_of_none st sid now hf]; exact h2
  | some sess =>
    have hopen := hp sess hf
    rw [endSession_eq_of_find st sid now sess hf]
    intro fp
    simp only
    rw [closedDurSum_map_close st.sessions sid now (now - sess.start_time)
      sess fp h1.1 hf hopen]
    by_cases hfp : fp = sess.file_path
    · subst hfp
      rw [statsTotal_updateFileStats_self, h2 sess.file_path]
      simp
    · rw [statsTotal_updateFileStats_other st.file_stats sess.file_path fp
        sess.project_path (now - sess.start_time) now hfp, h2 fp]
      have : (sess.file_path == fp) = false := by
        simp
        exact fun hc => hfp hc.symm
      rw [this]
      simp

lemma runStore_wf_agg (ops : List StoreOp) :
    ∀ st : Store, StoreWF st → AggInv st → ProperSeq st ops →
      StoreWF (runStore st ops) ∧ AggInv (runStore st ops) := by
  induction ops with
  | nil =>
    intro st h1 h2 _
    exact ⟨h1, h2⟩
  | cons op ops ih =>
    intro st h1 h2 hp
    obtain ⟨hpc, hps⟩ := hp
    cases op with
    | openS fp pp now =>
      exact ih _ (storeWF_start st fp pp now h1) (aggInv_start st fp pp now h2) hps
    | closeS sid now =>
      exact ih _ (storeWF_end st sid now h1) (aggInv_end st sid now h1 h2 hpc) hps

/-! ## Case lemmas for the tracker operations -/

lemma endSession_nextId (st : Store) (sid : Nat) (now : Int) :
    (st.endSession sid now).nextId = st.nextId := by
  unfold Store.endSession
  cases st.sessions.find? (fun s => s.id == sid) <;> simp

lemma endCurrentSession_cur_none (s : SysState) (now : Int)
    (h : s.tracker.currentSessionId = none) :
    endCurrentSession s now = (s, none) := by
  simp [endCurrentSession, h]

lemma endCurrentSession_db_none (s : SysState) (now : Int) (sid : Nat)
    (hc : s.tracker.currentSessionId = some sid) (hdb : s.db = none) :
    endCurrentSession s now = (s, some "Database not initialized") := by
  cases s with
  | mk db tracker =>
    simp only at hc hdb
    subst hdb
    simp [endCurrentSession, hc, dbmEndSession]

lemma endCurrentSession_ok (s : SysState) (now : Int) (sid : Nat) (st : Store)
    (hc : s.tracker.currentSessionId = some sid) (hdb : s.db = some st) :
    endCurrentSession s now =
      ({ db := some (st.endSession sid now),
         tracker := { s.tracker with
                      currentSessionId := none,
                      currentFilePath := none } }, none) := by
  simp [endCurrentSession, hc, hdb, dbmEndSession]

lemma startNewSession_ok_of_cur_none (s : SysState) (folders : List String)
    (fp : String) (now : Int) (st : Store)
    (hc : s.tracker.currentSessionId = none) (hdb : s.db = some st) :
    startNewSession s folders fp now =
      ({ db := some (st.startSession fp (getProjectPath folders fp) now).1,
         tracker := {
           currentSessionId := some st.nextId,
           currentFilePath := some fp,
           lastActivityTime := now } }, none) := by
  simp [startNewSession, endCurrentSession_cur_none s now hc, hdb,
    dbmStartSession, Store.startSession]

lemma startNewSession_ok_of_cur_some (s : SysState) (folders : List String)
    (fp : String) (now : Int) (sid : Nat) (st : Store)
    (hc : s.tracker.currentSessionId = some sid) (hdb : s.db = some st) :
    startNewSession s folders fp now =
      ({ db := some ((st.endSession sid now).startSession fp
           (getProjectPath folders fp) now).1,
         tracker := {
           currentSessionId := some st.nextId,
           currentFilePath := some fp,
           lastActivityTime := now } }, none) := by
  have h1 := endCurrentSession_ok s now sid st hc hdb
  simp [startNewSession, h1, dbmStartSession, Store.startSession,
    endSession_nextId]

lemma startNewSession_db_none (s : SysState) (folders : List String)
    (fp : String) (now : Int) (hdb : s.db = none) :
    (startNewSession s folders fp now).1.db = none ∧
      (startNewSession s folders fp now).2 = some "Database not initialized" := by
  cases hc : s.tracker.currentSessionId with
  | none =>
    rw [startNewSession, endCurrentSession_cur_none s now hc]
    simp [hdb, dbmStartSession]
  | some sid =>
    rw [startNewSession, endCurrentSession_db_none s now sid hc hdb]
    simp [hdb]

/-! ## Preservation of the tracker/store invariant -/

lemma stInv_end (st : Store) (sid : Nat) (now : Int)
    (h : StInv st (some sid)) : StInv (st.endSession sid now) none := by
  obtain ⟨hwf, hopen1, hex⟩ := h
  obtain ⟨x, hx, hxid⟩ := hex sid rfl
  have hfs : (st.sessions.find? (fun s => s.id == sid)).isSome := by
    rw [List.find?_isSome]
    exact ⟨x, hx, by simp [hxid]⟩
  obtain ⟨sess, hfind⟩ := Option.isSome_iff_exists.1 hfs
  refine ⟨storeWF_end st sid now hwf, ?_, ?_⟩
  · intro y hy hyopen
    rw [endSession_eq_of_find st sid now sess hfind] at hy
    simp only at hy
    obtain ⟨z, hz, hzy⟩ := List.mem_map.1 hy
    by_cases hzid : z.id = sid
    · rw [if_pos (by simp [hzid])] at hzy
      rw [← hzy] at hyopen
      simp at hyopen
    · rw [if_neg (by simp [hzid])] at hzy
      rw [← hzy] at hyopen
      exact absurd (Option.some.inj (hopen1 z hz hyopen)).symm hzid
  · intro sid2 hc
    exact absurd hc (by simp)

lemma stInv_start (st : Store) (fp : String) (pp : Option String) (now : Int)
    (h : StInv st none) :
    StInv (st.startSession fp pp now).1 (some st.nextId) := by
  obtain ⟨hwf, hopen1, _⟩ := h
  refine ⟨storeWF_start st fp pp now hwf, ?_, ?_⟩
  · intro x hx _
    simp only [Store.startSession, List.mem_append, List.mem_singleton] at hx
    rename_i hxopen
    cases hx with
    | inl hmem => exact absurd (hopen1 x hmem hxopen) (by simp)
    | inr heq => subst heq; rfl
  · intro sid2 hc
    have hs2 : sid2 = st.nextId := (Option.some.inj hc).symm
    subst hs2
    refine ⟨{ id := st.nextId, file_path := fp, project_path := pp,
              start_time := now, end_time := none, duration_ms := none },
            ?_, rfl⟩
    simp [Store.startSession]

lemma sysInv_lastActivity (s : SysState) (v : Int) (h : SysInv s) :
    SysInv { s with tracker := { s.tracker with lastActivityTime := v } } := by
  intro st hst
  exact h st hst

lemma sysInv_endCurrent (s : SysState) (now : Int) (h : SysInv s) :
    SysInv (endCurrentSession s now).1 := by
  cases hc : s.tracker.currentSessionId with
  | none => rw [endCurrentSession_cur_none s now hc]; exact h
  | some sid =>
    cases hdb : s.db with
    | none =>
      rw [endCurrentSession_db_none s now sid hc hdb]
      exact h
    | some st =>
      rw [endCurrentSession_ok s now sid st hc hdb]
      intro st2 hst2
      simp only at hst2
      have hst2e : st.endSession sid now = st2 := Option.some.inj hst2
      subst hst2e
      have h1 := h st hdb
      rw [hc] at h1
      exact stInv_end st sid now h1

lemma sysInv_startNew (s : SysState) (folders : List String) (fp : String)
    (now : Int) (h : SysInv s) :
    SysInv (startNewSession s folders fp now).1 := by
  cases hdb : s.db with
  | none =>
    have hd := (startNewSession_db_none s folders fp now hdb).1
    intro st2 hst2
    rw [hd] at hst2
    cases hst2
  | some st =>
    cases hc : s.tracker.currentSessionId with
    | none =>
      rw [startNewSession_ok_of_cur_none s folders fp now st hc hdb]
      intro st2 hst2
      simp only at hst2
      have hst2e : (st.startSession fp (getProjectPath folders fp) now).1 = st2 :=
        Option.some.inj hst2
      subst hst2e
      have h1 := h st hdb
      rw [hc] at h1
      exact stInv_start st fp (getProjectPath folders fp) now h1
    | some sid =>
      rw [startNewSession_ok_of_cur_some s folders fp now sid st hc hdb]
      intro st2 hst2
      simp only at hst2
      have hst2e :
          ((st.endSession sid now).startSession fp
            (getProjectPath folders fp) now).1 = st2 :=
        Option.some.inj hst2
      subst hst2e
      have h1 := h st hdb
      rw [hc] at h1
      have h2 := stInv_start (st.endSession sid now) fp
        (getProjectPath folders fp) now (stInv_end st sid now h1)
      rw [endSession_nextId] at h2
      exact h2

lemma sysInv_onActivity (s : SysState) (folders : List String) (fp : String)
    (now : Int) (h : SysInv s) :
    SysInv (onActivity s folders fp now).1 := by
  have h0 := sysInv_lastActivity s now h
  simp only [onActivity]
  split
  · exact h0
  · exact sysInv_startNew _ folders fp now h0

lemma sysInv_step (folders : List String) (s : SysState) (op : TrackerOp)
    (h : SysInv s) : SysInv (applyTrackerOp folders s op).1 := by
  cases op with
  | activity fp now => exact sysInv_onActivity s folders fp now h
  | editorChange fp now =>
    simp only [applyTrackerOp, onEditorChange]
    split
    · exact sysInv_lastActivity s now h
    · have h1 := sysInv_startNew s folders fp now h
      cases hr : startNewSession s folders fp now with
      | mk s1 err =>
        rw [hr] at h1
        cases err with
        | some e => exact h1
        | none => exact sysInv_lastActivity s1 now h1
  | focusChange focused af now =>
    cases focused with
    | false =>
      simp only [applyTrackerOp, Bool.false_eq_true, if_false, onWindowBlur]
      exact sysInv_lastActivity s (now - IDLE_TIMEOUT_MS) h
    | true =>
      simp only [applyTrackerOp, if_true]
      cases af with
      | none => exact h
      | some fp => exact sysInv_onActivity s folders fp now h
  | tick now =>
    simp only [applyTrackerOp, checkIdle]
    cases hc : s.tracker.currentSessionId with
    | none => simp only [hc]; exact h
    | some sid =>
      simp only [hc]
      split
      · exact sysInv_endCurrent s now h
      · exact h
  | stopOp now =>
    simp only [applyTrackerOp, trackerStop]
    exact sysInv_endCurrent s now h

lemma sysInv_run (folders : List String) (ops : List TrackerOp) :
    ∀ s : SysState, SysInv s → SysInv (runSys folders s ops) := by
  induction ops with
  | nil => intro s h; exact h
  | cons op ops ih =>
    intro s h
    exact ih _ (sysInv_step folders s op h)

lemma sysInv_init : SysInv initSys := by
  intro st hst
  simp only [initSys] at hst
  have he : Store.init = st := Option.some.inj hst
  subst he
  refine ⟨storeWF_init, ?_, ?_⟩
  · intro x hx
    simp [Store.init] at hx
  · intro sid hc
    simp [initSys] at hc

lemma length_open_le_one (l : List Session) (sid : Nat)
    (hnd : (l.map (fun s => s.id)).Nodup)
    (h : ∀ x ∈ l, x.end_time = none → x.id = sid) :
    (l.filter (fun x => x.end_time.isNone)).length ≤ 1 := by
  have hsub : List.Sublist
      ((l.filter (fun x => x.end_time.isNone)).map (fun s => s.id))
      (l.map (fun s => s.id)) := (List.filter_sublist l).map _
  have hnd2 := hnd.sublist hsub
  cases hlf : l.filter (fun x => x.end_time.isNone) with
  | nil => simp
  | cons a t =>
    cases t with
    | nil => simp
    | cons b t2 =>
      exfalso
      have hamem : a ∈ l.filter (fun x => x.end_time.isNone) := by
        rw [hlf]; exact List.mem_cons_self _ _
      have hbmem : b ∈ l.filter (fun x => x.end_time.isNone) := by
        rw [hlf]; exact List.mem_cons_of_mem _ (List.mem_cons_self _ _)
      have ha := List.mem_filter.1 hamem
      have hb := List.mem_filter.1 hbmem
      have haid : a.id = sid := h a ha.1 (Option.isNone_iff_eq_none.1 ha.2)
      have hbid : b.id = sid := h b hb.1 (Option.isNone_iff_eq_none.1 hb.2)
      rw [hlf, List.map_cons, List.map_cons, List.nodup_cons] at hnd2
      exact hnd2.1 (by rw [haid, ← hbid]; exact List.mem_cons_self _ _)

/-! ## Claim theorems -/

/-- Claim C3 (confirmed): for every sequence of tracker operations
(activity, editor change, window focus/blur, idle tick, stop) run from the
freshly activated state, at most one session row is open at any point;
whenever a new session is started the previously open one has already been
closed. -/
theorem tracker_at_most_one_open_session (folders : List String)
    (ops : List TrackerOp) :
    countOpen (runSys folders initSys ops) ≤ 1 := by
  have hinv := sysInv_run folders ops initSys sysInv_init
  unfold countOpen
  cases hdb : (runSys folders initSys ops).db with
  | none => simp
  | some st =>
    have hst := hinv st hdb
    obtain ⟨hwf, hopen1, hex⟩ := hst
    cases hc : (runSys folders initSys ops).tracker.currentSessionId with
    | none =>
      have hnil : st.sessions.filter (fun x => x.end_time.isNone) = [] := by
        rw [List.filter_eq_nil_iff]
        intro x hx hcon
        have hh := hopen1 x hx (Option.isNone_iff_eq_none.1 hcon)
        rw [hc] at hh
        cases hh
      show (st.sessions.filter (fun x => x.end_time.isNone)).length ≤ 1
      rw [hnil]
      simp
    | some sid =>
      show (st.sessions.filter (fun x => x.end_time.isNone)).length ≤ 1
      apply length_open_le_one st.sessions sid hwf.1
      intro x hx hxopen
      have hh := hopen1 x hx hxopen
      rw [hc] at hh
      exact (Option.some.inj hh).symm

/-- Claim C1 (counterexample): ending session 1 of `exStore` at t=100 and
then again at t=200 is not a no-op the second time: both the `sessions`
row and the `file_stats` aggregate change again, because `endSession` only
checks that the row exists, not that it is still open. -/
theorem endSession_twice_not_noop :
    ¬ (((exStore.endSession 1 100).endSession 1 200).file_stats =
        (exStore.endSession 1 100).file_stats ∧
      ((exStore.endSession 1 100).endSession 1 200).sessions =
        (exStore.endSession 1 100).sessions) := by
  decide

/-- Claim C1 (amended): `endSession` with an unknown id is a silent no-op
on both tables; but with the id of an already-closed session it re-applies
the close, adding the freshly recomputed duration to the file's
`total_time_ms` again, so calling it twice is not equivalent to calling it
once. -/
theorem endSession_unknown_noop_closed_reapplies (st : Store) (sid : Nat)
    (now : Int) :
    (st.sessions.find? (fun s => s.id == sid) = none →
      st.endSession sid now = st) ∧
    (∀ sess, st.sessions.find? (fun s => s.id == sid) = some sess →
      statsTotal (st.endSession sid now).file_stats sess.file_path =
        statsTotal st.file_stats sess.file_path + (now - sess.start_time)) := by
  constructor
  · intro hf
    exact endSession_eq_of_none st sid now hf
  · intro sess hf
    rw [endSession_eq_of_find st sid now sess hf]
    simp only
    rw [statsTotal_updateFileStats_self]

/-- Witness for the amended C1 at concrete inputs: id 2 is unknown in
`exStore` (no-op), and re-closing the already-closed session 1 at t=200
adds another 200ms. -/
theorem endSession_unknown_noop_closed_reapplies_witness :
    exStore.endSession 2 100 = exStore ∧
    statsTotal ((exStore.endSession 1 100).endSession 1 200).file_stats "a" =
      statsTotal (exStore.endSession 1 100).file_stats "a" + 200 := by
  constructor
  · exact (endSession_unknown_noop_closed_reapplies exStore 2 100).1 (by decide)
  · have h := (endSession_unknown_noop_closed_reapplies
      (exStore.endSession 1 100) 1 200).2
      ⟨1, "a", none, 0, some 100, some 100⟩ (by decide)
    simpa using h

/-- Claim C2 (counterexample): for the open/close/close sequence below the
final `total_time_ms` of file "a" is 300 while the sum of `duration_ms`
over its closed sessions is 200, so the sum law fails for sequences that
re-close a closed session. -/
theorem aggregate_sum_law_fails_on_double_close :
    statsTotal (runStore Store.init
      [.openS "a" none 0, .closeS 1 100, .closeS 1 200]).file_stats "a" ≠
    closedDurSum (runStore Store.init
      [.openS "a" none 0, .closeS 1 100, .closeS 1 200]).sessions "a" := by
  decide

/-- Claim C2 (amended): closing an open session sets `end_time = now` and
`duration_ms = now - start_time` on its row, adds exactly that duration to
the file's `total_time_ms` (creating the row if absent) and sets
`last_active = now`; and for every sequence of opens and closes in which
no close targets an already-closed session, each file's `total_time_ms`
equals the sum of `duration_ms` over its closed sessions. -/
theorem endSession_aggregate_update (st : Store) (sid : Nat) (now : Int)
    (sess : Session)
    (hfind : st.sessions.find? (fun s => s.id == sid) = some sess)
    (hopen : sess.end_time = none) :
    (∀ x ∈ (st.endSession sid now).sessions, x.id = sid →
      x.end_time = some now ∧
      x.duration_ms = some (now - sess.start_time)) ∧
    statsTotal (st.endSession sid now).file_stats sess.file_path =
      statsTotal st.file_stats sess.file_path + (now - sess.start_time) ∧
    statsLastActive (st.endSession sid now).file_stats sess.file_path =
      some now ∧
    ((st.endSession sid now).file_stats.find?
      (fun r => r.file_path == sess.file_path)).isSome ∧
    (∀ ops : List StoreOp, ProperSeq Store.init ops → ∀ fp,
      statsTotal (runStore Store.init ops).file_stats fp =
        closedDurSum (runStore Store.init ops).sessions fp) := by
  refine ⟨?_, ?_, ?_, ?_, ?_⟩
  · intro x hx hid
    rw [endSession_eq_of_find st sid now sess hfind] at hx
    simp only at hx
    exact close_map_spec st.sessions sid now (now - sess.start_time) x hx hid
  · rw [endSession_eq_of_find st sid now sess hfind]
    simp only
    rw [statsTotal_updateFileStats_self]
  · rw [endSession_eq_of_find st sid now sess hfind]
    simp only
    rw [statsLastActive_updateFileStats_self]
  · rw [endSession_eq_of_find st sid now sess hfind]
    simp only
    rw [find?_updateFileStats_self]
    cases st.file_stats.find? (fun r => r.file_path == sess.file_path) <;> simp
  · intro ops hp fp
    exact (runStore_wf_agg ops Store.init storeWF_init aggInv_init hp).2 fp

/-- Witness for C2 at concrete inputs: closing the open session of
`exStore` at t=100 records duration 100 and adds 100 to file "a". -/
theorem endSession_aggregate_update_witness :
    statsTotal (exStore.endSession 1 100).file_stats "a" =
      statsTotal exStore.file_stats "a" + 100 ∧
    statsLastActive (exStore.endSession 1 100).file_stats "a" = some 100 := by
  have h := endSession_aggregate_update exStore 1 100
    ⟨1, "a", none, 0, none, none⟩ (by decide) rfl
  exact ⟨by simpa using h.2.1, by simpa using h.2.2.1⟩

/-- Claim C4 (counterexample): in `exStoreP` session 2 carries project
"p2", and file "f" already has a `file_stats` row created with "p1";
closing session 2 leaves the row's `project_path` at "p1", not "p2". -/
theorem project_path_not_propagated_on_update :
    exStoreP.sessions.find? (fun s => s.id == 2) =
      some ⟨2, "f", some "p2", 20, none, none⟩ ∧
    statsProject (exStoreP.endSession 2 30).file_stats "f" =
      some (some "p1") ∧
    statsProject (exStoreP.endSession 2 30).file_stats "f" ≠
      some (some "p2") := by
  decide

/-- Claim C4 (amended): `endSession` writes the session's `project_path`
onto the `file_stats` row only when the row is created; if the row already
exists its `project_path` is left unchanged (first write wins). -/
theorem endSession_project_path_first_write (st : Store) (sid : Nat)
    (now : Int) (sess : Session)
    (hfind : st.sessions.find? (fun s => s.id == sid) = some sess) :
    (∀ r, st.file_stats.find? (fun x => x.file_path == sess.file_path) =
        some r →
      statsProject (st.endSession sid now).file_stats sess.file_path =
        some r.project_path) ∧
    (st.file_stats.find? (fun x => x.file_path == sess.file_path) = none →
      statsProject (st.endSession sid now).file_stats sess.file_path =
        some sess.project_path) := by
  constructor
  · intro r hr
    rw [endSession_eq_of_find st sid now sess hfind]
    simp only
    rw [statsProject_updateFileStats, hr]
  · intro hr
    rw [endSession_eq_of_find st sid now sess hfind]
    simp only
    rw [statsProject_updateFileStats, hr]

/-- Witness for the amended C4 at concrete inputs: the existing "f" row of
`exStoreP` keeps project "p1" after session 2 (project "p2") is closed. -/
theorem endSession_project_path_first_write_witness :
    statsProject (exStoreP.endSession 2 30).file_stats "f" =
      some (some "p1") := by
  have h := (endSession_project_path_first_write exStoreP 2 30
    ⟨2, "f", some "p2", 20, none, none⟩ (by decide)).1
    ⟨"f", some "p1", 10, 10⟩ (by decide)
  simpa using h

/-- Claim C5 (counterexample): with the database handle already null and
an idle open session, `checkIdle` propagates the "Database not
initialized" exception and the open-session state is not cleared:
`isTracking` still returns true. -/
theorem checkIdle_error_propagates :
    (checkIdle exDbClosed 200000).2 = some "Database not initialized" ∧
    (checkIdle exDbClosed 200000).1.tracker.currentSessionId = some 1 ∧
    (checkIdle exDbClosed 200000).1.tracker.currentFilePath = some "a" ∧
    isTracking (checkIdle exDbClosed 200000).1.tracker = true := by
  decide

/-- Claim C5 (amended): if the store's `endSession` throws while
`checkIdle` is closing an idle session (the db handle being null), the
exception propagates out of `checkIdle` and the tracker's in-memory state
is not cleared: the whole state is unchanged and `isTracking` still
returns true. -/
theorem checkIdle_store_error_state_not_cleared (s : SysState) (sid : Nat)
    (now : Int)
    (hc : s.tracker.currentSessionId = some sid)
    (hdb : s.db = none)
    (hidle : IDLE_TIMEOUT_MS ≤ now - s.tracker.lastActivityTime) :
    (checkIdle s now).2 = some "Database not initialized" ∧
    (checkIdle s now).1 = s ∧
    isTracking (checkIdle s now).1.tracker = true := by
  have h1 : checkIdle s now = endCurrentSession s now := by
    simp only [checkIdle, hc, if_pos hidle]
  rw [h1, endCurrentSession_db_none s now sid hc hdb]
  exact ⟨rfl, rfl, by simp [isTracking, hc]⟩

/-- Witness for the amended C5 at concrete inputs. -/
theorem checkIdle_store_error_state_not_cleared_witness :
    (checkIdle exDbClosed 200000).2 = some "Database not initialized" ∧
    (checkIdle exDbClosed 200000).1 = exDbClosed ∧
    isTracking (checkIdle exDbClosed 200000).1.tracker = true :=
  checkIdle_store_error_state_not_cleared exDbClosed 1 200000 rfl rfl
    (by decide)

/-- Claim C6 (confirmed): with an open session on fileA, an activity event
for a different fileB at time `now` closes the fileA session with
`end_time = now` and opens a new fileB session with `start_time = now`,
the tracker now pointing at the new session. -/
theorem onActivity_switches_file (s : SysState) (folders : List String)
    (st : Store) (sid : Nat) (fileA fileB : String) (now : Int)
    (sess : Session)
    (hdb : s.db = some st)
    (hwf : StoreWF st)
    (hc : s.tracker.currentSessionId = some sid)
    (hf : s.tracker.currentFilePath = some fileA)
    (hne : ¬ fileB = fileA)
    (hfind : st.sessions.find? (fun x => x.id == sid) = some sess) :
    (onActivity s folders fileB now).2 = none ∧
    ∃ st2, (onActivity s folders fileB now).1.db = some st2 ∧
      (∀ x ∈ st2.sessions, x.id = sid →
        x.end_time = some now ∧
        x.duration_ms = some (now - sess.start_time)) ∧
      (∃ x ∈ st2.sessions, x.id = st.nextId ∧ x.file_path = fileB ∧
        x.start_time = now ∧ x.end_time = none) ∧
      (onActivity s folders fileB now).1.tracker.currentSessionId =
        some st.nextId ∧
      (onActivity s folders fileB now).1.tracker.currentFilePath =
        some fileB ∧
      (onActivity s folders fileB now).1.tracker.lastActivityTime = now := by
  have hne2 : fileA ≠ fileB := fun h => hne h.symm
  have hcond : (({ s with tracker :=
        { s.tracker with lastActivityTime := now } } : SysState
      ).tracker.currentFilePath == some fileB &&
      ({ s with tracker :=
        { s.tracker with lastActivityTime := now } } : SysState
      ).tracker.currentSessionId.isSome) = false := by
    simp only
    rw [hf]
    simp [hne2]
  have hoa : onActivity s folders fileB now =
      startNewSession
        { s with tracker := { s.tracker with lastActivityTime := now } }
        folders fileB now := by
    simp only [onActivity, hcond, Bool.false_eq_true, if_false]
  have hsn := startNewSession_ok_of_cur_some
    { s with tracker := { s.tracker with lastActivityTime := now } }
    folders fileB now sid st hc hdb
  have hsid_eq : sess.id = sid := by
    have hps := List.find?_some hfind
    simpa using hps
  have hmem := List.mem_of_find?_eq_some hfind
  have hsid_lt : sid < st.nextId := hsid_eq ▸ hwf.2 sess hmem
  rw [hoa, hsn]
  refine ⟨rfl,
    ((st.endSession sid now).startSession fileB
      (getProjectPath folders fileB) now).1,
    rfl, ?_, ?_, rfl, rfl, rfl⟩
  · intro x hx hxid
    simp only [Store.startSession, List.mem_append, List.mem_singleton] at hx
    cases hx with
    | inl hmem2 =>
      rw [endSession_eq_of_find st sid now sess hfind] at hmem2
      simp only at hmem2
      exact close_map_spec st.sessions sid now (now - sess.start_time) x
        hmem2 hxid
    | inr heq =>
      exfalso
      subst heq
      have hni : st.nextId = sid := by
        simpa [endSession_nextId] using hxid
      omega
  · refine ⟨{
      id := (st.endSession sid now).nextId,
      file_path := fileB,
      project_path := getProjectPath folders fileB,
      start_time := now,
      end_time := none,
      duration_ms := none }, ?_, ?_, rfl, rfl, rfl⟩
    · simp [Store.startSession]
    · simp [endSession_nextId]

/-- Witness for C6: in `exOpen` (session 1 open on "a"), activity on "b"
at t=50 closes session 1 with end 50 / duration 50 and opens session 2 on
"b" starting at 50. -/
theorem onActivity_switches_file_witness :
    (onActivity exOpen [] "b" 50).2 = none ∧
    ∃ st2, (onActivity exOpen [] "b" 50).1.db = some st2 ∧
      (∀ x ∈ st2.sessions, x.id = 1 →
        x.end_time = some 50 ∧ x.duration_ms = some (50 - 0)) ∧
      (∃ x ∈ st2.sessions, x.id = exStore.nextId ∧ x.file_path = "b" ∧
        x.start_time = 50 ∧ x.end_time = none) ∧
      (onActivity exOpen [] "b" 50).1.tracker.currentSessionId =
        some exStore.nextId ∧
      (onActivity exOpen [] "b" 50).1.tracker.currentFilePath = some "b" ∧
      (onActivity exOpen [] "b" 50).1.tracker.lastActivityTime = 50 :=
  onActivity_switches_file exOpen [] exStore 1 "a" "b" 50
    ⟨1, "a", none, 0, none, none⟩ rfl ⟨by decide, by decide⟩ rfl rfl
    (by decide) (by decide)

/-- Claim C7 (confirmed): a repeated activity event for the currently
tracked file only refreshes `lastActivityTime`: the store (both tables),
the current session id and the current file are all unchanged and no
error occurs. -/
theorem onActivity_same_file_noop (s : SysState) (folders : List String)
    (fp : String) (sid : Nat) (now : Int)
    (hc : s.tracker.currentSessionId = some sid)
    (hf : s.tracker.currentFilePath = some fp) :
    onActivity s folders fp now =
      ({ s with tracker := { s.tracker with lastActivityTime := now } },
        none) ∧
    (onActivity s folders fp now).1.db = s.db ∧
    (onActivity s folders fp now).1.tracker.currentSessionId = some sid ∧
    (onActivity s folders fp now).1.tracker.currentFilePath = some fp := by
  have hcond : (({ s with tracker :=
        { s.tracker with lastActivityTime := now } } : SysState
      ).tracker.currentFilePath == some fp &&
      ({ s with tracker :=
        { s.tracker with lastActivityTime := now } } : SysState
      ).tracker.currentSessionId.isSome) = true := by
    simp only
    rw [hf, hc]
    simp
  have heq : onActivity s folders fp now =
      ({ s with tracker := { s.tracker with lastActivityTime := now } },
        none) := by
    simp only [onActivity, hcond, if_true]
  refine ⟨heq, ?_, ?_, ?_⟩ <;> rw [heq] <;>
    first
    | rfl
    | exact hc
    | exact hf

/-- Witness for C7: repeated activity on "a" in `exOpen` at t=99 leaves
everything but `lastActivityTime` unchanged. -/
theorem onActivity_same_file_noop_witness :
    onActivity exOpen [] "a" 99 =
      ({ exOpen with tracker :=
        { exOpen.tracker with lastActivityTime := 99 } }, none) ∧
    (onActivity exOpen [] "a" 99).1.db = exOpen.db ∧
    (onActivity exOpen [] "a" 99).1.tracker.currentSessionId = some 1 ∧
    (onActivity exOpen [] "a" 99).1.tracker.currentFilePath = some "a" :=
  onActivity_same_file_noop exOpen [] "a" 1 99 rfl rfl

/-- Claim C8 (confirmed): the idle timeout is 2 minutes; `checkIdle`
changes nothing when no session is open or the threshold is not reached,
closes the current session (clearing the tracker and writing
`end_time = now` to its row) exactly when one is open and
`now - lastActivityAt >= IDLE_TIMEOUT_MS`, and a window blur by itself
never closes a session or touches the store. -/
theorem checkIdle_iff_idle_elapsed (s : SysState) (now : Int) :
    IDLE_TIMEOUT_MS = 2 * 60 * 1000 ∧
    (s.tracker.currentSessionId = none → checkIdle s now = (s, none)) ∧
    (now - s.tracker.lastActivityTime < IDLE_TIMEOUT_MS →
      checkIdle s now = (s, none)) ∧
    (∀ sid st sess, s.tracker.currentSessionId = some sid →
      IDLE_TIMEOUT_MS ≤ now - s.tracker.lastActivityTime →
      s.db = some st →
      st.sessions.find? (fun x => x.id == sid) = some sess →
      (checkIdle s now).2 = none ∧
      (checkIdle s now).1.tracker.currentSessionId = none ∧
      (checkIdle s now).1.tracker.currentFilePath = none ∧
      ∃ st2, (checkIdle s now).1.db = some st2 ∧
        ∀ x ∈ st2.sessions, x.id = sid →
          x.end_time = some now ∧
          x.duration_ms = some (now - sess.start_time)) ∧
    ((onWindowBlur s now).tracker.currentSessionId =
        s.tracker.currentSessionId ∧
      (onWindowBlur s now).db = s.db) := by
  refine ⟨rfl, ?_, ?_, ?_, rfl, rfl⟩
  · intro h
    simp [checkIdle, h]
  · intro h
    cases hcur : s.tracker.currentSessionId with
    | none => simp [checkIdle, hcur]
    | some sid =>
      simp only [checkIdle, hcur]
      rw [if_neg (not_le.2 h)]
  · intro sid st sess hcur hidle hdb hfind
    have h1 : checkIdle s now = endCurrentSession s now := by
      simp only [checkIdle, hcur, if_pos hidle]
    rw [h1, endCurrentSession_ok s now sid st hcur hdb]
    refine ⟨rfl, rfl, rfl, st.endSession sid now, rfl, ?_⟩
    intro x hx hxid
    rw [endSession_eq_of_find st sid now sess hfind] at hx
    simp only at hx
    exact close_map_spec st.sessions sid now (now - sess.start_time) x hx hxid

/-- Witness for C8: in `exOpen`, a tick at t=200000 (idle for 200s)
closes session 1 with end time 200000. -/
theorem checkIdle_iff_idle_elapsed_witness :
    (checkIdle exOpen 200000).2 = none ∧
    (checkIdle exOpen 200000).1.tracker.currentSessionId = none ∧
    (checkIdle exOpen 200000).1.tracker.currentFilePath = none ∧
    ∃ st2, (checkIdle exOpen 200000).1.db = some st2 ∧
      ∀ x ∈ st2.sessions, x.id = 1 →
        x.end_time = some 200000 ∧ x.duration_ms = some (200000 - 0) :=
  (checkIdle_iff_idle_elapsed exOpen 200000).2.2.2.1 1 exStore
    ⟨1, "a", none, 0, none, none⟩ rfl (by decide) rfl (by decide)

/-- Claim C9 (confirmed): a window blur while a session is open does not
close it; it backdates `lastActivityTime` to exactly
`now - IDLE_TIMEOUT_MS`, so with no further activity the next `checkIdle`
at any time `now2 ≥ now` closes the session. -/
theorem window_blur_backdates_then_closes (s : SysState) (st : Store)
    (sid : Nat) (sess : Session) (now now2 : Int)
    (hdb : s.db = some st)
    (hc : s.tracker.currentSessionId = some sid)
    (hfind : st.sessions.find? (fun x => x.id == sid) = some sess)
    (hle : now ≤ now2) :
    (onWindowBlur s now).tracker.currentSessionId = some sid ∧
    (onWindowBlur s now).db = some st ∧
    (onWindowBlur s now).tracker.lastActivityTime =
      now - IDLE_TIMEOUT_MS ∧
    (checkIdle (onWindowBlur s now) now2).2 = none ∧
    (checkIdle (onWindowBlur s now) now2).1.tracker.currentSessionId =
      none ∧
    ∃ st2, (checkIdle (onWindowBlur s now) now2).1.db = some st2 ∧
      ∀ x ∈ st2.sessions, x.id = sid → x.end_time = some now2 := by
  have hcur1 : (onWindowBlur s now).tracker.currentSessionId = some sid := hc
  have hdb1 : (onWindowBlur s now).db = some st := hdb
  have hidle : IDLE_TIMEOUT_MS ≤
      now2 - (onWindowBlur s now).tracker.lastActivityTime := by
    show IDLE_TIMEOUT_MS ≤ now2 - (now - IDLE_TIMEOUT_MS)
    omega
  have h1 : checkIdle (onWindowBlur s now) now2 =
      endCurrentSession (onWindowBlur s now) now2 := by
    simp only [checkIdle, hcur1, if_pos hidle]
  rw [h1, endCurrentSession_ok (onWindowBlur s now) now2 sid st hcur1 hdb1]
  refine ⟨hc, hdb, rfl, rfl, rfl, st.endSession sid now2, rfl, ?_⟩
  intro x hx hxid
  rw [endSession_eq_of_find st sid now2 sess hfind] at hx
  simp only at hx
  exact (close_map_spec st.sessions sid now2 (now2 - sess.start_time) x
    hx hxid).1

/-- Witness for C9: blur `exOpen` at t=10, then a tick at t=30 closes
session 1 with end time 30. -/
theorem window_blur_backdates_then_closes_witness :
    (onWindowBlur exOpen 10).tracker.currentSessionId = some 1 ∧
    (onWindowBlur exOpen 10).db = some exStore ∧
    (onWindowBlur exOpen 10).tracker.lastActivityTime =
      10 - IDLE_TIMEOUT_MS ∧
    (checkIdle (onWindowBlur exOpen 10) 30).2 = none ∧
    (checkIdle (onWindowBlur exOpen 10) 30).1.tracker.currentSessionId =
      none ∧
    ∃ st2, (checkIdle (onWindowBlur exOpen 10) 30).1.db = some st2 ∧
      ∀ x ∈ st2.sessions, x.id = 1 → x.end_time = some 30 :=
  window_blur_backdates_then_closes exOpen exStore 1
    ⟨1, "a", none, 0, none, none⟩ 10 30 rfl rfl (by decide) (by decide)

/-- Claim C10 (confirmed): a still-open session whose `start_time` falls
on or after local midnight contributes 0 to `getTodayStats.totalTime`
(its NULL `duration_ms` is skipped by the SUM) while its `file_path` is
still counted by `COUNT(DISTINCT file_path)`. -/
theorem getTodayStats_open_session_counted (st : Store) (sess : Session)
    (today : Int)
    (hopen : sess.duration_ms = none)
    (htoday : today ≤ sess.start_time) :
    (Store.getTodayStats
      ⟨st.sessions ++ [sess], st.file_stats, st.nextId⟩ today).1 =
      (st.getTodayStats today).1 ∧
    sess.file_path ∈
      (((st.sessions ++ [sess]).filter
        (fun x => decide (today ≤ x.start_time))).map
        (fun x => x.file_path)).dedup ∧
    1 ≤ (Store.getTodayStats
      ⟨st.sessions ++ [sess], st.file_stats, st.nextId⟩ today).2 := by
  have hmem : sess ∈ (st.sessions ++ [sess]).filter
      (fun x => decide (today ≤ x.start_time)) := by
    rw [List.mem_filter]
    exact ⟨List.mem_append_right _ (List.mem_singleton_self _),
      by simpa using htoday⟩
  have hmem2 : sess.file_path ∈
      (((st.sessions ++ [sess]).filter
        (fun x => decide (today ≤ x.start_time))).map
        (fun x => x.file_path)).dedup := by
    rw [List.mem_dedup]
    exact List.mem_map_of_mem _ hmem
  refine ⟨?_, hmem2, ?_⟩
  · simp only [Store.getTodayStats]
    rw [List.filter_append, List.map_append, List.sum_append]
    have hone : List.filter (fun x => decide (today ≤ x.start_time))
        [sess] = [sess] := by
      simp [htoday]
    rw [hone]
    simp [hopen]
  · show 1 ≤ (((st.sessions ++ [sess]).filter
      (fun x => decide (today ≤ x.start_time))).map
      (fun x => x.file_path)).dedup.length
    have hne : (((st.sessions ++ [sess]).filter
        (fun x => decide (today ≤ x.start_time))).map
        (fun x => x.file_path)).dedup ≠ [] :=
      List.ne_nil_of_mem hmem2
    exact Nat.succ_le_of_lt (List.length_pos.2 hne)

/-- Witness for C10: one open session on "x" started at t=5 with midnight
at t=0 yields totalTime 0 and fileCount 1. -/
theorem getTodayStats_open_session_counted_witness :
    ((Store.getTodayStats
      ⟨Store.init.sessions ++ [⟨1, "x", none, 5, none, none⟩],
        Store.init.file_stats, Store.init.nextId⟩ 0).1 =
      (Store.init.getTodayStats 0).1 ∧
    ("x" : String) ∈
      (((Store.init.sessions ++
        ([⟨1, "x", none, 5, none, none⟩] : List Session)).filter
        (fun x => decide ((0:Int) ≤ x.start_time))).map
        (fun x => x.file_path)).dedup ∧
    1 ≤ (Store.getTodayStats
      ⟨Store.init.sessions ++ [⟨1, "x", none, 5, none, none⟩],
        Store.init.file_stats, Store.init.nextId⟩ 0).2) ∧
    Store.getTodayStats
      ⟨Store.init.sessions ++ [⟨1, "x", none, 5, none, none⟩],
        Store.init.file_stats, Store.init.nextId⟩ 0 = (0, 1) :=
  ⟨getTodayStats_open_session_counted Store.init
    ⟨1, "x", none, 5, none, none⟩ 0 rfl (by decide), by decide⟩
